import Mathlib

/-! Shallow embedding of a small TypeScript program consisting of two
in-memory domains: a library catalog (Author, Book, Library) and a
university roster (Course, Person, Teacher, Student, Group, University).

Modelling conventions:
* JavaScript numbers that hold integers (ids, years, credits, maxBooks)
  are `Int`; the grade-point average, which may be fractional, is `Rat`.
* A possibly-`undefined` value is an `Option`; in particular the
  `Library` fields `books` and `authors`, which the constructor never
  initializes, are `Option (List _)` with `none` standing for
  `undefined`.
* A thrown exception is an explicit error value (`JsError`).  Methods
  that mutate their receiver return the post-state paired with
  `Option JsError` (`none` on normal return); the post-state on a throw
  is whatever the object held when the exception left the method.
* `0/0`, which in JavaScript is `NaN`, is modelled by `none` in an
  `Option Rat` result.
* `toLowerCase` / `toLocaleUpperCase` are modelled by ASCII case
  mapping over the character list of the string, and `String.includes`
  by contiguous-segment containment of character lists.
-/

namespace TsProg

/-- Errors thrown by the program: the two domain error classes, the
generic `Error`, and the runtime `TypeError` raised when a member of
`undefined` is accessed. -/
inductive JsError where
  | libraryError (msg : String)
  | universityError (msg : String)
  | error (msg : String)
  | typeError (msg : String)
deriving DecidableEq, Repr

/-- ASCII lower-casing of one character, as `toLowerCase` acts on the
ASCII range. -/
def charToLower (c : Char) : Char :=
  if 65 ≤ c.toNat ∧ c.toNat ≤ 90 then Char.ofNat (c.toNat + 32) else c

/-- ASCII upper-casing of one character, as `toLocaleUpperCase` acts on
the ASCII range. -/
def charToUpper (c : Char) : Char :=
  if 97 ≤ c.toNat ∧ c.toNat ≤ 122 then Char.ofNat (c.toNat - 32) else c

/-- `s.toLowerCase()`. -/
def jsToLower (s : String) : String := ⟨s.data.map charToLower⟩

/-- `s.toLocaleUpperCase()`. -/
def jsToUpper (s : String) : String := ⟨s.data.map charToUpper⟩

/-- `pat` occurs as a contiguous segment of `l`. -/
def listIncludes [DecidableEq α] (pat : List α) : List α → Bool
  | [] => pat.isEmpty
  | a :: t => pat.isPrefixOf (a :: t) || listIncludes pat t

/-- `hay.includes(pat)` on strings. -/
def jsIncludes (hay pat : String) : Bool := listIncludes pat.data hay.data

/-- JavaScript truthiness of a string: falsy exactly for `""`. -/
def jsTruthyStr (s : String) : Bool := !(s == "")

/-- JavaScript truthiness of an integral number: falsy exactly for `0`. -/
def jsTruthyInt (n : Int) : Bool := !(n == 0)

/-- Author entity: `id` and `name` (class `Author`). -/
structure Author where
  id : Int
  name : String
deriving DecidableEq, Repr

/-- Book entity (class `Book`): `id`, `title`, `genre`, `year` and a
reference to its author. -/
structure Book where
  id : Int
  title : String
  genre : String
  year : Int
  author : Author
deriving DecidableEq, Repr

/-- Search criteria (`CriteriaBook`): every field optional. -/
structure CriteriaBook where
  title : Option String := none
  genre : Option String := none
  year : Option Int := none
  authorName : Option String := none
deriving DecidableEq, Repr

/-- The `Library` class.  The constructor assigns only `name` and
`maxBooks`; `books` and `authors` are declared but never initialized,
so they are `Option` lists with `none` for `undefined`. -/
structure Library where
  name : String
  books : Option (List Book)
  authors : Option (List Author)
  maxBooks : Int
deriving DecidableEq, Repr

/-- `new Library(name, maxBooks)`: assigns `name` and `maxBooks` only;
`books` and `authors` stay `undefined`. -/
def Library.make (name : String) (maxBooks : Int) : Library :=
  { name := name, books := none, authors := none, maxBooks := maxBooks }

/-- `Library.addBook`.  Reads `this.books` first (`includes`), so on an
uninitialized library it throws `TypeError` at once; then the duplicate
check, then the capacity check, then the two pushes.  The push to
`books` happens before `authors` is read, so if only `authors` were
`undefined` the book would already have been appended when the
`TypeError` is thrown. -/
def Library.addBook (l : Library) (b : Book) : Library × Option JsError :=
  match l.books with
  | none => (l, some (JsError.typeError "Cannot read properties of undefined (reading books)"))
  | some bs =>
    if bs.contains b then
      (l, some (JsError.libraryError "Book is already in the library"))
    else if l.maxBooks ≤ (bs.length : Int) then
      (l, some (JsError.libraryError "Storage of book is full"))
    else
      match l.authors with
      | none =>
        ({ l with books := some (bs ++ [b]) },
         some (JsError.typeError "Cannot read properties of undefined (reading authors)"))
      | some as =>
        ({ l with books := some (bs ++ [b]), authors := some (as ++ [b.author]) }, none)

/-- `Library.getBooks`: returns `this.books` as it is — when the field
is `undefined` it returns `undefined` without throwing. -/
def Library.getBooks (l : Library) : Except JsError (Option (List Book)) :=
  Except.ok l.books

/-- `Library.getAuthors`: returns `this.authors` as it is. -/
def Library.getAuthors (l : Library) : Except JsError (Option (List Author)) :=
  Except.ok l.authors

/-- `Library.getBookById`: `this.books.find(...)`; throws `TypeError`
when `books` is `undefined`. -/
def Library.getBookById (l : Library) (id : Int) : Except JsError (Option Book) :=
  match l.books with
  | none => Except.error (JsError.typeError "Cannot read properties of undefined (reading books)")
  | some bs => Except.ok (bs.find? (fun b => b.id == id))

/-- `Library.getAuthorById`: `this.authors.find(...)`. -/
def Library.getAuthorById (l : Library) (id : Int) : Except JsError (Option Author) :=
  match l.authors with
  | none => Except.error (JsError.typeError "Cannot read properties of undefined (reading authors)")
  | some as => Except.ok (as.find? (fun a => a.id == id))

/-- `Library.getBooksByAuthor(authorIdOrName)`: on a number, filter by
`author.id`; on a string, filter by upper-cased exact name equality. -/
def Library.getBooksByAuthor (l : Library) (q : Sum Int String) : Except JsError (List Book) :=
  match l.books with
  | none => Except.error (JsError.typeError "Cannot read properties of undefined (reading books)")
  | some bs =>
    match q with
    | Sum.inl id => Except.ok (bs.filter (fun b => b.author.id == id))
    | Sum.inr nm => Except.ok (bs.filter (fun b => jsToUpper b.author.name == jsToUpper nm))

/-- One supplied-string criterion of `Library.search`:
`field ? target.toLowerCase().includes(field.toLowerCase()) : false`.
The guard is JavaScript truthiness, so an empty string behaves like an
absent field. -/
def optStrMatch (field : Option String) (target : String) : Bool :=
  match field with
  | none => false
  | some t => if jsTruthyStr t then jsIncludes (jsToLower target) (jsToLower t) else false

/-- The year criterion of `Library.search`:
`year ? book.year === year : false`; `0` is falsy. -/
def optYearMatch (field : Option Int) (target : Int) : Bool :=
  match field with
  | none => false
  | some y => if jsTruthyInt y then target == y else false

/-- The filter predicate of `Library.search`: the OR of the four
per-field matches. -/
def bookMatches (c : CriteriaBook) (b : Book) : Bool :=
  optStrMatch c.title b.title || optStrMatch c.genre b.genre ||
    optYearMatch c.year b.year || optStrMatch c.authorName b.author.name

/-- `Library.search(criteria)`: `this.books.filter(...)`. -/
def Library.search (l : Library) (c : CriteriaBook) : Except JsError (List Book) :=
  match l.books with
  | none => Except.error (JsError.typeError "Cannot read properties of undefined (reading books)")
  | some bs => Except.ok (bs.filter (fun b => bookMatches c b))

/-- The string values of the `Role` enum. -/
def Role.student : String := "student"

/-- The teacher value of the `Role` enum. -/
def Role.teacher : String := "teacher"

/-- The string values of the `AcademicStatus` enum. -/
def AcademicStatus.active : String := "active"

/-- The academic-leave value of the `AcademicStatus` enum. -/
def AcademicStatus.academicLeave : String := "academic leave"

/-- A calendar date as the program reads it off a `Date` object:
`getFullYear()`, `getMonth()` and `getDate()`. -/
structure SimpleDate where
  year : Int
  month : Int
  day : Int
deriving DecidableEq, Repr

/-- `Course`: `name`, `discipline`, `credits`. -/
structure Course where
  name : String
  discipline : String
  credits : Int
deriving DecidableEq, Repr

/-- `AcademicPerformance`: `totalCredits` and `gpa`. -/
structure AcademicPerformance where
  totalCredits : Int
  gpa : Rat
deriving DecidableEq, Repr

/-- `Person`: identity fields plus the stored role string. -/
structure Person where
  firstName : String
  lastName : String
  birthDay : SimpleDate
  id : Int
  gender : String
  role : String
deriving DecidableEq, Repr

/-- The `age` getter, with `new Date()` made an explicit `today`
argument: year difference, minus one when the birthday has not yet
occurred this year, decided by `monthDiff` and the day of month. -/
def Person.ageOn (p : Person) (today : SimpleDate) : Int :=
  let age := today.year - p.birthDay.year
  let monthDiff := today.month - p.birthDay.month
  if monthDiff < 0 ∨ (monthDiff = 0 ∧ today.day < p.birthDay.day) then age - 1 else age

/-- `Teacher extends Person`: `specializations` and taught `courses`. -/
structure Teacher extends Person where
  specializations : List String
  courses : List Course
deriving DecidableEq, Repr

/-- `Student extends Person`: performance record, enrolled courses and
the academic status string (initially `AcademicStatus.active`). -/
structure Student extends Person where
  academicPerformance : AcademicPerformance
  enrolledCourses : List Course
  status : String
deriving DecidableEq, Repr

/-- `Student.getAverageScore`: returns the stored gpa. -/
def Student.getAverageScore (s : Student) : Rat := s.academicPerformance.gpa

/-- `Student.enrollCourse(course)`: throws `UniversityError` unless the
status is active; otherwise pushes the course and adds its credits. -/
def Student.enrollCourse (s : Student) (c : Course) : Student × Option JsError :=
  if s.status ≠ AcademicStatus.active then
    (s, some (JsError.universityError "Cannot enroll: Student is not in active status"))
  else
    ({ s with
        enrolledCourses := s.enrolledCourses ++ [c],
        academicPerformance :=
          { s.academicPerformance with
              totalCredits := s.academicPerformance.totalCredits + c.credits } }, none)

/-- `Student.updateAcademicStatus(newStatus)`: unconditional assignment. -/
def Student.updateAcademicStatus (s : Student) (newStatus : String) : Student :=
  { s with status := newStatus }

/-- `Group`: a course, a teacher and the student roster. -/
structure Group where
  name : String
  course : Course
  teacher : Teacher
  students : List Student
deriving DecidableEq, Repr

/-- `Group.addStudent`: duplicate check then push. -/
def Group.addStudent (g : Group) (s : Student) : Group × Option JsError :=
  if g.students.contains s then
    (g, some (JsError.universityError "Student is already in the group"))
  else
    ({ g with students := g.students ++ [s] }, none)

/-- `Group.getStudentIdByGroup(id)`: `findIndex` by student id; the
`-1` sentinel (`!~index`) becomes `none` and throws `UniversityError`. -/
def Group.getStudentIdByGroup (g : Group) (id : Int) : Except JsError Nat :=
  match g.students.findIdx? (fun s => s.id == id) with
  | none => Except.error (JsError.universityError "Student not found in group")
  | some i => Except.ok i

/-- `Group.removeStudentById(id)`: `splice(index, 1)` at the index the
shared lookup helper returns; the helper's throw propagates. -/
def Group.removeStudentById (g : Group) (id : Int) : Group × Option JsError :=
  match g.getStudentIdByGroup id with
  | Except.error e => (g, some e)
  | Except.ok i => ({ g with students := g.students.eraseIdx i }, none)

/-- Division as JavaScript performs it on the average computation:
`0/0` is `NaN`, `x/0` is an infinity — neither a finite number, both
modelled `none`. -/
def jsDiv (a b : Rat) : Option Rat :=
  if b = 0 then none else some (a / b)

/-- `Group.getAverageGroupScore`: the guard `if (this.students.length)`
returns `0` for every non-empty roster; only the empty roster reaches
the reduce-and-divide, a `0/0`. -/
def Group.getAverageGroupScore (g : Group) : Option Rat :=
  if g.students.length ≠ 0 then some 0
  else
    let totalScore := g.students.foldl (fun sum s => sum + s.getAverageScore) 0
    jsDiv totalScore (g.students.length : Rat)

/-- `University`: the aggregate lists. -/
structure University where
  name : String
  courses : List Course
  groups : List Group
  people : List Person
deriving DecidableEq, Repr

/-- `University.addPerson`: unconditional push. -/
def University.addPerson (u : University) (p : Person) : University :=
  { u with people := u.people ++ [p] }

/-- `University.getAllPeopleByRole(role)`: the switch filters on the
matching role string; any other value reaches `assertNeverRole`, which
throws a plain `Error`. -/
def University.getAllPeopleByRole (u : University) (role : String) :
    Except JsError (List Person) :=
  if role = Role.student then
    Except.ok (u.people.filter (fun p => p.role == Role.student))
  else if role = Role.teacher then
    Except.ok (u.people.filter (fun p => p.role == Role.teacher))
  else
    Except.error (JsError.error ("Unhandled role: " ++ role))

/-- Concrete entities used by witnesses: the authors and books of the
program's own sample scenario. -/
def rowling : Author := ⟨1, "J.K. Rowling"⟩

/-- Second sample author. -/
def martin : Author := ⟨2, "George R.R. Martin"⟩

/-- Sample book 1. -/
def bookHP : Book := ⟨1, "Harry Potter", "Fantasy", 1997, rowling⟩

/-- Sample book 2. -/
def bookGoT : Book := ⟨2, "Game of Thrones", "Fantasy", 1996, martin⟩

/-- Sample book 3. -/
def bookCoK : Book := ⟨3, "A Clash of Kings", "War", 1998, martin⟩

/-- The sample library after the three `addBook` calls of the source. -/
def cityLibrary : Library :=
  ⟨"City Library", some [bookHP, bookGoT, bookCoK], some [rowling, martin, martin], 100⟩

/-- A library whose collections are initialized and empty. -/
def emptyLibrary : Library := ⟨"City Library", some [], some [], 100⟩

/-- Sample date. -/
def sampleDate : SimpleDate := ⟨2000, 0, 1⟩

/-- Sample person with the student role. -/
def samplePerson : Person := ⟨"Ada", "Lovelace", sampleDate, 1, "female", Role.student⟩

/-- Sample person with the teacher role. -/
def sampleTeacherPerson : Person := ⟨"Alan", "Turing", sampleDate, 2, "male", Role.teacher⟩

/-- Sample student, freshly constructed (active status, empty record). -/
def sampleStudent : Student :=
  { toPerson := samplePerson,
    academicPerformance := ⟨0, 0⟩,
    enrolledCourses := [],
    status := AcademicStatus.active }

/-- Sample teacher. -/
def sampleTeacher : Teacher :=
  { toPerson := sampleTeacherPerson, specializations := [], courses := [] }

/-- Sample course. -/
def sampleCourse : Course := ⟨"Algorithms", "Computer Science", 5⟩

/-- Sample group with a one-student roster. -/
def sampleGroup : Group := ⟨"G1", sampleCourse, sampleTeacher, [sampleStudent]⟩

/-- Sample university. -/
def sampleUniversity : University :=
  ⟨"U", [sampleCourse], [sampleGroup], [samplePerson, sampleTeacherPerson]⟩

/-- C1: `Group.getAverageGroupScore` returns `0` for every non-empty
roster, and only an empty roster reaches the sum-divided-by-count
computation, which there is the division `0/0` (modelled `none`). -/
theorem getAverageGroupScore_inverted_guard (g : Group) :
    (g.students ≠ [] → g.getAverageGroupScore = some 0) ∧
    (g.students = [] → g.getAverageGroupScore = none) := by
  constructor
  · intro h
    have hl : g.students.length ≠ 0 := by
      simpa [List.length_eq_zero] using h
    simp [Group.getAverageGroupScore, hl]
  · intro h
    simp [Group.getAverageGroupScore, h, jsDiv]

/-- Witness for C1 at the one-student sample group. -/
theorem getAverageGroupScore_inverted_guard_witness :
    sampleGroup.students ≠ [] ∧ sampleGroup.getAverageGroupScore = some 0 :=
  ⟨by simp [sampleGroup],
   (getAverageGroupScore_inverted_guard sampleGroup).1 (by simp [sampleGroup])⟩

/-- C5: `Student.enrollCourse` throws `UniversityError` and leaves the
student unchanged when the status is not active; on an active student
it appends the course and adds exactly its credits, leaving the status
as it was. -/
theorem enrollCourse_spec (s : Student) (c : Course) :
    (s.status ≠ AcademicStatus.active →
      s.enrollCourse c =
        (s, some (JsError.universityError "Cannot enroll: Student is not in active status"))) ∧
    (s.status = AcademicStatus.active →
      (s.enrollCourse c).2 = none ∧
      (s.enrollCourse c).1.enrolledCourses = s.enrolledCourses ++ [c] ∧
      (s.enrollCourse c).1.academicPerformance.totalCredits
        = s.academicPerformance.totalCredits + c.credits ∧
      (s.enrollCourse c).1.status = s.status) := by
  constructor
  · intro h
    simp [Student.enrollCourse, h]
  · intro h
    simp [Student.enrollCourse, h]

/-- Witness for C5: the freshly constructed sample student is active
and enrolls successfully. -/
theorem enrollCourse_spec_witness :
    sampleStudent.status = AcademicStatus.active ∧
    ((sampleStudent.enrollCourse sampleCourse).2 = none ∧
     (sampleStudent.enrollCourse sampleCourse).1.enrolledCourses
       = sampleStudent.enrolledCourses ++ [sampleCourse] ∧
     (sampleStudent.enrollCourse sampleCourse).1.academicPerformance.totalCredits
       = sampleStudent.academicPerformance.totalCredits + sampleCourse.credits ∧
     (sampleStudent.enrollCourse sampleCourse).1.status = sampleStudent.status) :=
  ⟨rfl, (enrollCourse_spec sampleStudent sampleCourse).2 rfl⟩

/-- C10: `enrollCourse` has no duplicate check: on an active student
two successive calls with the same course both return normally, the
course is appended twice, and the credits are added twice. -/
theorem enrollCourse_no_duplicate_check (s : Student) (c : Course)
    (h : s.status = AcademicStatus.active) :
    ∃ s1 s2, s.enrollCourse c = (s1, none) ∧ s1.enrollCourse c = (s2, none) ∧
      s2.enrolledCourses = s.enrolledCourses ++ [c, c] ∧
      s2.academicPerformance.totalCredits
        = s.academicPerformance.totalCredits + 2 * c.credits := by
  refine ⟨{ s with
              enrolledCourses := s.enrolledCourses ++ [c],
              academicPerformance :=
                { s.academicPerformance with
                    totalCredits := s.academicPerformance.totalCredits + c.credits } },
          { s with
              enrolledCourses := s.enrolledCourses ++ [c] ++ [c],
              academicPerformance :=
                { s.academicPerformance with
                    totalCredits := s.academicPerformance.totalCredits + c.credits + c.credits } },
          ?_, ?_, ?_, ?_⟩
  · simp [Student.enrollCourse, h]
  · simp [Student.enrollCourse, h]
  · simp
  · simp; ring

/-- Witness for C10 at the sample student and course. -/
theorem enrollCourse_no_duplicate_check_witness :
    ∃ s1 s2, sampleStudent.enrollCourse sampleCourse = (s1, none) ∧
      s1.enrollCourse sampleCourse = (s2, none) ∧
      s2.enrolledCourses = sampleStudent.enrolledCourses ++ [sampleCourse, sampleCourse] ∧
      s2.academicPerformance.totalCredits
        = sampleStudent.academicPerformance.totalCredits + 2 * sampleCourse.credits :=
  enrollCourse_no_duplicate_check sampleStudent sampleCourse rfl

/-- C9: the `age` getter is the year difference decremented by one
exactly when today's month is before the birth month, or the months
are equal and today's day of month is before the birth day; and a
birth date one year minus one day before today yields one less than a
birth date exactly one year before today. -/
theorem age_boundary (p : Person) (today : SimpleDate) :
    (p.ageOn today =
      today.year - p.birthDay.year -
        (if today.month < p.birthDay.month ∨
            (today.month = p.birthDay.month ∧ today.day < p.birthDay.day)
         then 1 else 0)) ∧
    (∀ y m d : Int,
      ({ p with birthDay := ⟨y - 1, m, d + 1⟩ } : Person).ageOn ⟨y, m, d⟩ =
        ({ p with birthDay := ⟨y - 1, m, d⟩ } : Person).ageOn ⟨y, m, d⟩ - 1) := by
  constructor
  · simp only [Person.ageOn]
    split_ifs <;> omega
  · intro y m d
    simp only [Person.ageOn]
    split_ifs <;> omega

/-- C6: `Group.removeStudentById` throws `UniversityError` and leaves
the roster unchanged when no student has the id; when one does, it
removes exactly the first student with that id, shortening the roster
by one. -/
theorem removeStudentById_spec (g : Group) (n : Int) :
    ((∀ s ∈ g.students, s.id ≠ n) →
      g.removeStudentById n = (g, some (JsError.universityError "Student not found in group"))) ∧
    (∀ pre s post, g.students = pre ++ s :: post → s.id = n → (∀ x ∈ pre, x.id ≠ n) →
      g.removeStudentById n = ({ g with students := pre ++ post }, none) ∧
      g.students.length = (pre ++ post).length + 1) := by
  constructor
  · intro h
    have hfi : g.students.findIdx? (fun s => s.id == n) = none := by
      rw [List.findIdx?_eq_none_iff]
      intro x hx
      simpa using h x hx
    simp [Group.removeStudentById, Group.getStudentIdByGroup, hfi]
  · intro pre s post hsplit hid hpre
    have hfpre : pre.findIdx? (fun s => s.id == n) = none := by
      rw [List.findIdx?_eq_none_iff]
      intro x hx
      simpa using hpre x hx
    have hfi : g.students.findIdx? (fun s => s.id == n) = some pre.length := by
      rw [hsplit, List.findIdx?_append, hfpre]
      simp [List.findIdx?_cons, hid]
    constructor
    · simp only [Group.removeStudentById, Group.getStudentIdByGroup, hfi]
      rw [hsplit, List.eraseIdx_append_of_length_le (le_refl pre.length)]
      simp
    · rw [hsplit]
      simp
      omega

/-- Witness for C6: removing the only student of the sample group by
its id. -/
theorem removeStudentById_spec_witness :
    sampleGroup.removeStudentById 1
      = ({ sampleGroup with students := ([] : List Student) ++ [] }, none) ∧
    sampleGroup.students.length = (([] : List Student) ++ []).length + 1 :=
  (removeStudentById_spec sampleGroup 1).2 [] sampleStudent [] rfl rfl (by simp)

/-- C7: `University.getAllPeopleByRole` returns exactly the people
whose stored role string equals the requested role when that role is
one of the two known values, and throws an `Error` on any other
value. -/
theorem getAllPeopleByRole_spec (u : University) (role : String) :
    ((role = Role.student ∨ role = Role.teacher) →
      ∃ r, u.getAllPeopleByRole role = Except.ok r ∧
        ∀ p, p ∈ r ↔ p ∈ u.people ∧ p.role = role) ∧
    (role ≠ Role.student → role ≠ Role.teacher →
      u.getAllPeopleByRole role = Except.error (JsError.error ("Unhandled role: " ++ role))) := by
  constructor
  · rintro (h | h) <;> subst h
    · refine ⟨u.people.filter (fun p => p.role == Role.student), ?_, ?_⟩
      · simp [University.getAllPeopleByRole]
      · intro p
        simp [List.mem_filter]
    · refine ⟨u.people.filter (fun p => p.role == Role.teacher), ?_, ?_⟩
      · simp [University.getAllPeopleByRole, Role.student, Role.teacher]
      · intro p
        simp [List.mem_filter]
  · intro h1 h2
    simp [University.getAllPeopleByRole, h1, h2]

/-- Witness for C7: filtering the sample university by the student
role. -/
theorem getAllPeopleByRole_spec_witness :
    ∃ r, sampleUniversity.getAllPeopleByRole Role.student = Except.ok r ∧
      ∀ p, p ∈ r ↔ p ∈ sampleUniversity.people ∧ p.role = Role.student :=
  (getAllPeopleByRole_spec sampleUniversity Role.student).1 (Or.inl rfl)

/-- C4: on a library whose collections are initialized, `addBook`
throws `LibraryError` when the book is already present or the capacity
is reached — the library unchanged in both cases — and otherwise
appends the book to `books` and its author to `authors` without any
deduplication. -/
theorem addBook_spec (l : Library) (b : Book) (bs : List Book) (as : List Author)
    (hb : l.books = some bs) (ha : l.authors = some as) :
    (b ∈ bs → l.addBook b = (l, some (JsError.libraryError "Book is already in the library"))) ∧
    (b ∉ bs → l.maxBooks ≤ (bs.length : Int) →
      l.addBook b = (l, some (JsError.libraryError "Storage of book is full"))) ∧
    (b ∉ bs → (bs.length : Int) < l.maxBooks →
      l.addBook b =
        ({ l with books := some (bs ++ [b]), authors := some (as ++ [b.author]) }, none)) := by
  refine ⟨?_, ?_, ?_⟩
  · intro h
    simp [Library.addBook, hb, h]
  · intro h1 h2
    simp [Library.addBook, hb, h1, h2]
  · intro h1 h2
    simp [Library.addBook, hb, ha, h1, not_le.mpr h2]

/-- Witness for C4: adding the sample book to an empty initialized
library succeeds and appends book and author. -/
theorem addBook_spec_witness :
    bookHP ∉ ([] : List Book) ∧ (([] : List Book).length : Int) < emptyLibrary.maxBooks ∧
    emptyLibrary.addBook bookHP =
      ({ emptyLibrary with
          books := some (([] : List Book) ++ [bookHP]),
          authors := some (([] : List Author) ++ [bookHP.author]) }, none) :=
  ⟨by simp, by decide,
   (addBook_spec emptyLibrary bookHP [] [] rfl rfl).2.2 (by simp) (by decide)⟩

/-- C8: on an initialized library, `getBooksByAuthor` filters by
`author.id` equality for a numeric query and by upper-cased exact name
equality for a string query. -/
theorem getBooksByAuthor_spec (l : Library) (bs : List Book) (q : Sum Int String)
    (h : l.books = some bs) :
    ∃ r, l.getBooksByAuthor q = Except.ok r ∧
      ∀ b, b ∈ r ↔ b ∈ bs ∧
        (match q with
         | Sum.inl i => b.author.id = i
         | Sum.inr nm => jsToUpper b.author.name = jsToUpper nm) := by
  cases q with
  | inl i =>
    refine ⟨bs.filter (fun b => b.author.id == i), ?_, ?_⟩
    · simp [Library.getBooksByAuthor, h]
    · intro b
      simp [List.mem_filter]
  | inr nm =>
    refine ⟨bs.filter (fun b => jsToUpper b.author.name == jsToUpper nm), ?_, ?_⟩
    · simp [Library.getBooksByAuthor, h]
    · intro b
      simp [List.mem_filter]

/-- Witness for C8: the lower-case query string matches the registered
author name after upper-casing, as the specification's example asks. -/
theorem getBooksByAuthor_spec_witness :
    (∃ r, cityLibrary.getBooksByAuthor (Sum.inr "j.k. rowling") = Except.ok r ∧
      ∀ b, b ∈ r ↔ b ∈ [bookHP, bookGoT, bookCoK] ∧
        jsToUpper b.author.name = jsToUpper "j.k. rowling") ∧
    jsToUpper bookHP.author.name = jsToUpper "j.k. rowling" :=
  ⟨getBooksByAuthor_spec cityLibrary [bookHP, bookGoT, bookCoK] (Sum.inr "j.k. rowling") rfl,
   by decide⟩

/-- Characterization of one supplied-string criterion of `search`: it
holds exactly for a supplied, non-empty pattern contained (after
lower-casing) in the target. -/
theorem optStrMatch_eq_true (f : Option String) (tgt : String) :
    optStrMatch f tgt = true ↔
      ∃ t, f = some t ∧ t ≠ "" ∧ jsIncludes (jsToLower tgt) (jsToLower t) = true := by
  cases f with
  | none => simp [optStrMatch]
  | some t =>
    by_cases ht : t = ""
    · subst ht
      simp [optStrMatch, jsTruthyStr]
    · simp [optStrMatch, jsTruthyStr, ht]

/-- Characterization of the year criterion of `search`: it holds
exactly for a supplied, non-zero year equal to the book's year. -/
theorem optYearMatch_eq_true (f : Option Int) (tgt : Int) :
    optYearMatch f tgt = true ↔ ∃ y, f = some y ∧ y ≠ 0 ∧ tgt = y := by
  cases f with
  | none => simp [optYearMatch]
  | some y =>
    by_cases hy : y = 0
    · subst hy
      simp [optYearMatch, jsTruthyInt]
    · simp [optYearMatch, jsTruthyInt, hy]

/-- The filter predicate of `search` holds exactly when some supplied
truthy criterion matches. -/
theorem bookMatches_eq_true (c : CriteriaBook) (b : Book) :
    bookMatches c b = true ↔
      ((∃ t, c.title = some t ∧ t ≠ "" ∧
          jsIncludes (jsToLower b.title) (jsToLower t) = true) ∨
       (∃ t, c.genre = some t ∧ t ≠ "" ∧
          jsIncludes (jsToLower b.genre) (jsToLower t) = true) ∨
       (∃ y, c.year = some y ∧ y ≠ 0 ∧ b.year = y) ∨
       (∃ t, c.authorName = some t ∧ t ≠ "" ∧
          jsIncludes (jsToLower b.author.name) (jsToLower t) = true)) := by
  simp [bookMatches, optStrMatch_eq_true, optYearMatch_eq_true, or_assoc]

/-- C3 (amended): on an initialized library, `search` returns exactly
the books for which at least one supplied and truthy criterion matches:
a non-empty title, genre or author-name pattern by case-insensitive
substring containment, a non-zero year by equality.  A supplied falsy
field (`""` or `0`) behaves like an omitted one. -/
theorem search_spec_amended (l : Library) (bs : List Book) (c : CriteriaBook)
    (h : l.books = some bs) :
    ∃ r, l.search c = Except.ok r ∧
      ∀ b, b ∈ r ↔ b ∈ bs ∧
        ((∃ t, c.title = some t ∧ t ≠ "" ∧
            jsIncludes (jsToLower b.title) (jsToLower t) = true) ∨
         (∃ t, c.genre = some t ∧ t ≠ "" ∧
            jsIncludes (jsToLower b.genre) (jsToLower t) = true) ∨
         (∃ y, c.year = some y ∧ y ≠ 0 ∧ b.year = y) ∨
         (∃ t, c.authorName = some t ∧ t ≠ "" ∧
            jsIncludes (jsToLower b.author.name) (jsToLower t) = true)) := by
  refine ⟨bs.filter (fun b => bookMatches c b), ?_, ?_⟩
  · simp [Library.search, h]
  · intro b
    rw [List.mem_filter, bookMatches_eq_true]

/-- Witness for C3: the specification's own scenario — searching the
sample library for title "Harry" or genre "Fantasy". -/
theorem search_spec_amended_witness :
    ∃ r, cityLibrary.search { title := some "Harry", genre := some "Fantasy" } = Except.ok r ∧
      ∀ b, b ∈ r ↔ b ∈ [bookHP, bookGoT, bookCoK] ∧
        ((∃ t, ({ title := some "Harry", genre := some "Fantasy" } : CriteriaBook).title = some t ∧
            t ≠ "" ∧ jsIncludes (jsToLower b.title) (jsToLower t) = true) ∨
         (∃ t, ({ title := some "Harry", genre := some "Fantasy" } : CriteriaBook).genre = some t ∧
            t ≠ "" ∧ jsIncludes (jsToLower b.genre) (jsToLower t) = true) ∨
         (∃ y, ({ title := some "Harry", genre := some "Fantasy" } : CriteriaBook).year = some y ∧
            y ≠ 0 ∧ b.year = y) ∨
         (∃ t, ({ title := some "Harry", genre := some "Fantasy" } : CriteriaBook).authorName = some t ∧
            t ≠ "" ∧ jsIncludes (jsToLower b.author.name) (jsToLower t) = true)) :=
  search_spec_amended cityLibrary [bookHP, bookGoT, bookCoK]
    { title := some "Harry", genre := some "Fantasy" } rfl

/-- The search semantics exactly as the claim's sentence states them:
every supplied field participates in the disjunction — substring
containment for the three string fields, equality for the year —
with no truthiness guard. -/
def searchPerClaim (bs : List Book) (c : CriteriaBook) : List Book :=
  bs.filter fun b =>
    (match c.title with
     | some t => jsIncludes (jsToLower b.title) (jsToLower t)
     | none => false) ||
    (match c.genre with
     | some t => jsIncludes (jsToLower b.genre) (jsToLower t)
     | none => false) ||
    (match c.year with
     | some y => b.year == y
     | none => false) ||
    (match c.authorName with
     | some t => jsIncludes (jsToLower b.author.name) (jsToLower t)
     | none => false)

/-- A criteria record that supplies an empty title. -/
def emptyTitleCriteria : CriteriaBook := { title := some "" }

/-- Counterexample to C3 as stated: with the supplied title `""` the
claim's semantics return every book (the empty string is contained in
every title), but the code's truthiness guard treats the supplied
field as absent and `search` returns no book. -/
theorem search_truthiness_counterexample :
    cityLibrary.search emptyTitleCriteria = Except.ok [] ∧
    searchPerClaim [bookHP, bookGoT, bookCoK] emptyTitleCriteria
      = [bookHP, bookGoT, bookCoK] := by
  constructor
  · rfl
  · rfl

/-- Counterexample to C2 as stated: `getBooks` (and `getAuthors`) on a
freshly constructed library do not fail with a runtime type error —
they only return `this.books` / `this.authors`, so they return
`undefined` (here `none`) normally. -/
theorem freshLibrary_getBooks_returns_undefined :
    (Library.make "City Library" 100).getBooks = Except.ok none ∧
    (Library.make "City Library" 100).getAuthors = Except.ok none :=
  ⟨rfl, rfl⟩

/-- C2 (amended): the constructor leaves `books` and `authors`
uninitialized; on a freshly constructed library every operation that
accesses a member of those collections (`addBook`, `getBookById`,
`getAuthorById`, `getBooksByAuthor`, `search`) fails with a runtime
`TypeError`, while `getBooks` and `getAuthors` return the `undefined`
value itself without throwing. -/
theorem freshLibrary_behavior (nm : String) (mx : Int) (b : Book) (i j : Int)
    (q : Sum Int String) (c : CriteriaBook) :
    (Library.make nm mx).books = none ∧
    (Library.make nm mx).authors = none ∧
    ((Library.make nm mx).addBook b).2
      = some (JsError.typeError "Cannot read properties of undefined (reading books)") ∧
    ((Library.make nm mx).addBook b).1 = Library.make nm mx ∧
    (Library.make nm mx).getBookById i
      = Except.error (JsError.typeError "Cannot read properties of undefined (reading books)") ∧
    (Library.make nm mx).getAuthorById j
      = Except.error (JsError.typeError "Cannot read properties of undefined (reading authors)") ∧
    (Library.make nm mx).getBooksByAuthor q
      = Except.error (JsError.typeError "Cannot read properties of undefined (reading books)") ∧
    (Library.make nm mx).search c
      = Except.error (JsError.typeError "Cannot read properties of undefined (reading books)") ∧
    (Library.make nm mx).getBooks = Except.ok none ∧
    (Library.make nm mx).getAuthors = Except.ok none :=
  ⟨rfl, rfl, rfl, rfl, rfl, rfl, rfl, rfl, rfl, rfl⟩

end TsProg
